import Mathlib

/-
Verification of the Pixel Studio image editor core
(src/components/image-editor/image-editor.tsx).

The component's state and handlers are embedded shallowly:
numbers carried by React state are modelled as Int (slider values,
rotation degrees) or ℚ (pointer coordinates, scale factors, dimensions,
which are IEEE doubles holding exact small rationals in the scenarios of
interest); pixel buffers (data URLs plus their decoded pixels) are
modelled as `PixelImage`; each event handler becomes a pure function on
an explicit `Session` record.
-/

/-- One pixel, channels as rationals (CSS channel range 0..1). -/
structure Pixel where
  r : ℚ
  g : ℚ
  b : ℚ
deriving DecidableEq, Repr

/-- A decoded pixel buffer with its native dimensions.  Stands for the
data-URL strings held in the `image` / `originalImage` React state. -/
structure PixelImage where
  width : Nat
  height : Nat
  pix : Nat → Nat → Pixel

/-- The `crop` field of `ImageState` (never populated by the component). -/
structure CropRect where
  x : ℚ
  y : ℚ
  width : ℚ
  height : ℚ
deriving DecidableEq, Repr

/-- `interface ImageState` (image-editor.tsx lines 43-52). -/
structure ImageState where
  brightness : Int
  contrast : Int
  saturation : Int
  rotation : Int
  flipH : Bool
  flipV : Bool
  filter : String
  crop : Option CropRect
deriving DecidableEq, Repr

/-- `const defaultState` (lines 54-63). -/
def defaultState : ImageState :=
  { brightness := 100
  , contrast := 100
  , saturation := 100
  , rotation := 0
  , flipH := false
  , flipV := false
  , filter := "none"
  , crop := none }

/-- A `Partial<ImageState>` as passed to `updateState`: every field
optional; an absent field leaves the current value unchanged. -/
structure StatePatch where
  brightness : Option Int := none
  contrast : Option Int := none
  saturation : Option Int := none
  rotation : Option Int := none
  flipH : Option Bool := none
  flipV : Option Bool := none
  filter : Option String := none
  crop : Option (Option CropRect) := none
deriving DecidableEq, Repr

/-- The spread `{ ...imageState, ...newState }` (line 96). -/
def applyPatch (s : ImageState) (p : StatePatch) : ImageState :=
  { brightness := p.brightness.getD s.brightness
  , contrast := p.contrast.getD s.contrast
  , saturation := p.saturation.getD s.saturation
  , rotation := p.rotation.getD s.rotation
  , flipH := p.flipH.getD s.flipH
  , flipV := p.flipV.getD s.flipV
  , filter := p.filter.getD s.filter
  , crop := p.crop.getD s.crop }

/-- A patch that overwrites every field, so that its application yields
exactly a chosen target state. -/
def toPatch (t : ImageState) : StatePatch :=
  { brightness := some t.brightness
  , contrast := some t.contrast
  , saturation := some t.saturation
  , rotation := some t.rotation
  , flipH := some t.flipH
  , flipV := some t.flipV
  , filter := some t.filter
  , crop := some t.crop }

/-- The three pieces of React state that make up the undo/redo log:
`imageState`, `history`, `historyIndex` (lines 79-81). -/
structure HistoryState where
  imageState : ImageState
  history : List ImageState
  historyIndex : Nat
deriving DecidableEq, Repr

/-- The initial values of those three `useState` hooks (also what every
load/reset writes): current state `defaultState`, history `[defaultState]`,
index 0. -/
def initialHistory : HistoryState :=
  { imageState := defaultState, history := [defaultState], historyIndex := 0 }

/-- `updateState` (lines 94-104): merge the patch over the current state,
truncate the history after the cursor (`history.slice(0, historyIndex+1)`),
append the merged state, and move the cursor to the new last index. -/
def updateState (hs : HistoryState) (p : StatePatch) : HistoryState :=
  let updatedState := applyPatch hs.imageState p
  let newHistory := hs.history.take (hs.historyIndex + 1) ++ [updatedState]
  { imageState := updatedState
  , history := newHistory
  , historyIndex := newHistory.length - 1 }

/-- `undo` (lines 106-111).  `history[historyIndex - 1]` is modelled with
`List.getD`; the default is never reached from reachable states. -/
def undo (hs : HistoryState) : HistoryState :=
  if 0 < hs.historyIndex then
    { imageState := hs.history.getD (hs.historyIndex - 1) defaultState
    , history := hs.history
    , historyIndex := hs.historyIndex - 1 }
  else hs

/-- `redo` (lines 113-118). -/
def redo (hs : HistoryState) : HistoryState :=
  if hs.historyIndex < hs.history.length - 1 then
    { imageState := hs.history.getD (hs.historyIndex + 1) defaultState
    , history := hs.history
    , historyIndex := hs.historyIndex + 1 }
  else hs

/-- A sequence of `updateState` pushes starting from a freshly
loaded/initial log. -/
def pushes (ps : List StatePatch) : HistoryState :=
  ps.foldl updateState initialHistory

/-- The invariant maintained by pushes: the cursor sits on the last entry
and the current state is that entry. -/
def AtTop (hs : HistoryState) : Prop :=
  hs.historyIndex + 1 = hs.history.length ∧
  hs.history.getD hs.historyIndex defaultState = hs.imageState

lemma atTop_initial : AtTop initialHistory := by
  constructor <;> rfl

lemma atTop_updateState (hs : HistoryState) (p : StatePatch) (h : AtTop hs) :
    AtTop (updateState hs p) := by
  obtain ⟨h1, _⟩ := h
  unfold updateState
  refine ⟨?_, ?_⟩
  · simp
  · simp [List.getD_append_right, le_refl]

lemma atTop_pushes_aux (ps : List StatePatch) :
    ∀ hs : HistoryState, AtTop hs → AtTop (ps.foldl updateState hs) := by
  induction ps with
  | nil => intro hs h; exact h
  | cons p rest ih =>
      intro hs h
      exact ih (updateState hs p) (atTop_updateState hs p h)

lemma atTop_pushes (ps : List StatePatch) : AtTop (pushes ps) :=
  atTop_pushes_aux ps initialHistory atTop_initial

lemma undo_redo_roundtrip (hs : HistoryState) (h : AtTop hs) :
    (redo (undo hs)).imageState = hs.imageState := by
  obtain ⟨hlen, hcur⟩ := h
  unfold undo redo
  by_cases hpos : 0 < hs.historyIndex
  · simp only [hpos, if_true]
    have hlt : hs.historyIndex - 1 < hs.history.length - 1 := by omega
    simp only [hlt, if_true]
    have : hs.historyIndex - 1 + 1 = hs.historyIndex := by omega
    rw [this, hcur]
  · simp only [hpos, if_false]
    have hidx : hs.historyIndex = 0 := by omega
    have hnot : ¬ hs.historyIndex < hs.history.length - 1 := by omega
    simp only [hnot, if_false]

/-- `handleCropMouseDown` (lines 184-191), restricted to the point it
stores: the client point relative to the container box, with NO clamping. -/
def handleCropMouseDown (clientX clientY rectLeft rectTop : ℚ) : ℚ × ℚ :=
  (clientX - rectLeft, clientY - rectTop)

/-- `handleCropMouseMove` (lines 193-199): the relative point clamped to
`[0, rect.width] × [0, rect.height]`. -/
def handleCropMouseMove (clientX clientY rectLeft rectTop rectW rectH : ℚ) :
    ℚ × ℚ :=
  (max 0 (min (clientX - rectLeft) rectW),
   max 0 (min (clientY - rectTop) rectH))

/-- The source-rectangle arithmetic of `applyCrop` (lines 211-218):
scale factors from displayed box to native dimensions, then the
order-independent bounding rectangle of the two selection corners. -/
structure CropComp where
  x : ℚ
  y : ℚ
  w : ℚ
  h : ℚ
deriving DecidableEq, Repr

def cropComputation (startP endP : ℚ × ℚ) (rectW rectH origW origH : ℚ) :
    CropComp :=
  let scaleX := origW / rectW
  let scaleY := origH / rectH
  { x := min startP.1 endP.1 * scaleX
  , y := min startP.2 endP.2 * scaleY
  , w := |endP.1 - startP.1| * scaleX
  , h := |endP.2 - startP.2| * scaleY }

/-- The rasterization step of `applyCrop` (lines 220-231): a canvas of the
(truncated, as the canvas width/height setters truncate) crop size is
filled by `ctx.drawImage(img, cropX, cropY, cropWidth, cropHeight, 0, 0,
cropWidth, cropHeight)` — a plain copy of the source sub-rectangle of the
RAW current image (`img.src = image`): `ctx.filter` is never set and no
transform is installed, so no color or geometric adjustment is applied.
Sampling is modelled at integer pixel granularity. -/
def cropRaster (img : PixelImage) (c : CropComp) : PixelImage :=
  { width := (⌊c.w⌋ : ℤ).toNat
  , height := (⌊c.h⌋ : ℤ).toNat
  , pix := fun px py => img.pix (px + (⌊c.x⌋ : ℤ).toNat) (py + (⌊c.y⌋ : ℤ).toNat) }

/-- The rasterization of `handleResize` (lines 253-264):
`ctx.drawImage(img, 0, 0, resizeWidth, resizeHeight)` scales the whole
raw image onto a `resizeWidth × resizeHeight` canvas (again no filter, no
transform).  Resampling is modelled nearest-neighbour. -/
def resizeRaster (img : PixelImage) (w h : ℚ) : PixelImage :=
  let w2 := (⌊w⌋ : ℤ).toNat
  let h2 := (⌊h⌋ : ℤ).toNat
  { width := w2
  , height := h2
  , pix := fun px py => img.pix (px * img.width / w2) (py * img.height / h2) }

/-- All React state of the `ImageEditor` component (lines 77-88) that the
claims touch.  `maintainAspect` embeds `maintainAspectRatio`. -/
structure Session where
  image : Option PixelImage
  originalImage : Option PixelImage
  hs : HistoryState
  isCropping : Bool
  cropStart : Option (ℚ × ℚ)
  cropEnd : Option (ℚ × ℚ)
  resizeWidth : ℚ
  resizeHeight : ℚ
  origWidth : ℚ
  origHeight : ℚ
  maintainAspect : Bool

/-- The `useState` initial values. -/
def initSession : Session :=
  { image := none
  , originalImage := none
  , hs := initialHistory
  , isCropping := false
  , cropStart := none
  , cropEnd := none
  , resizeWidth := 0
  , resizeHeight := 0
  , origWidth := 0
  , origHeight := 0
  , maintainAspect := true }

/-- The user-interface events wired to the component's handlers.  Each
carries the environment inputs its handler reads from the DOM (pointer
client coordinates, bounding-box geometry).  Asynchronous `img.onload`
completions (load, crop commit, resize commit) are modelled as part of
the triggering event, per the single-threaded event model. -/
inductive Event where
  | setBrightness (v : Int)
  | setContrast (v : Int)
  | setSaturation (v : Int)
  | rotateMinus90
  | rotatePlus90
  | setRotation (v : Int)
  | toggleFlipH
  | toggleFlipV
  | setFilter (f : String)
  | undoBtn
  | redoBtn
  | upload (img : PixelImage)
  | startCrop
  | cancelCropBtn
  | cropMouseDown (clientX clientY rectLeft rectTop : ℚ)
  | cropMouseMove (clientX clientY rectLeft rectTop rectW rectH : ℚ)
  | applyCropBtn (rectW rectH : ℚ)
  | resizeBtn
  | widthChange (v : Int)
  | heightChange (v : Int)
  | setMaintainAspect (b : Bool)
  | resetAllBtn

/-- One event-handler invocation.  Each branch transcribes the handler it
names; `updateState` calls carry exactly the partial objects appearing in
the JSX (none of which mentions the `crop` field). -/
def step (s : Session) : Event → Session
  | .setBrightness v => { s with hs := updateState s.hs { brightness := some v } }
  | .setContrast v => { s with hs := updateState s.hs { contrast := some v } }
  | .setSaturation v => { s with hs := updateState s.hs { saturation := some v } }
  | .rotateMinus90 =>
      { s with hs := updateState s.hs { rotation := some (s.hs.imageState.rotation - 90) } }
  | .rotatePlus90 =>
      { s with hs := updateState s.hs { rotation := some (s.hs.imageState.rotation + 90) } }
  | .setRotation v => { s with hs := updateState s.hs { rotation := some v } }
  | .toggleFlipH => { s with hs := updateState s.hs { flipH := some (!s.hs.imageState.flipH) } }
  | .toggleFlipV => { s with hs := updateState s.hs { flipV := some (!s.hs.imageState.flipV) } }
  | .setFilter f => { s with hs := updateState s.hs { filter := some f } }
  | .undoBtn => { s with hs := undo s.hs }
  | .redoBtn => { s with hs := redo s.hs }
  | .upload img =>
      { s with image := some img
             , originalImage := some img
             , hs := initialHistory
             , origWidth := img.width
             , origHeight := img.height
             , resizeWidth := img.width
             , resizeHeight := img.height }
  | .startCrop => { s with isCropping := true }
  | .cancelCropBtn => { s with isCropping := false, cropStart := none, cropEnd := none }
  | .cropMouseDown cx cy l t =>
      if s.isCropping then
        let p := handleCropMouseDown cx cy l t
        { s with cropStart := some p, cropEnd := some p }
      else s
  | .cropMouseMove cx cy l t rw rh =>
      if s.isCropping then
        match s.cropStart with
        | some _ => { s with cropEnd := some (handleCropMouseMove cx cy l t rw rh) }
        | none => s
      else s
  | .applyCropBtn rw rh =>
      match s.cropStart, s.cropEnd, s.image with
      | some st, some en, some img =>
          let c := cropComputation st en rw rh s.origWidth s.origHeight
          let newImg := cropRaster img c
          { s with image := some newImg
                 , originalImage := some newImg
                 , origWidth := c.w
                 , origHeight := c.h
                 , resizeWidth := c.w
                 , resizeHeight := c.h
                 , isCropping := false
                 , cropStart := none
                 , cropEnd := none }
      | _, _, _ => s
  | .resizeBtn =>
      match s.image with
      | some img =>
          let newImg := resizeRaster img s.resizeWidth s.resizeHeight
          { s with image := some newImg
                 , originalImage := some newImg
                 , origWidth := s.resizeWidth
                 , origHeight := s.resizeHeight }
      | none => s
  | .widthChange v =>
      if s.maintainAspect ∧ 0 < s.origWidth then
        { s with resizeWidth := (v : ℚ)
               , resizeHeight := (round ((v : ℚ) * (s.origHeight / s.origWidth)) : ℤ) }
      else { s with resizeWidth := (v : ℚ) }
  | .heightChange v =>
      if s.maintainAspect ∧ 0 < s.origHeight then
        { s with resizeHeight := (v : ℚ)
               , resizeWidth := (round ((v : ℚ) * (s.origWidth / s.origHeight)) : ℤ) }
      else { s with resizeHeight := (v : ℚ) }
  | .setMaintainAspect b => { s with maintainAspect := b }
  | .resetAllBtn =>
      match s.originalImage with
      | some b => { s with image := some b, hs := initialHistory }
      | none => s

/-- Run a list of events from the initial session. -/
def run (es : List Event) : Session :=
  es.foldl step initSession

/-- One entry of the `filters` preset array (lines 65-74). -/
structure FilterPreset where
  name : String
  value : String
  css : String
deriving DecidableEq, Repr

/-- `const filters` (lines 65-74). -/
def filters : List FilterPreset :=
  [ ⟨"None", "none", ""⟩
  , ⟨"Grayscale", "grayscale", "grayscale(100%)"⟩
  , ⟨"Sepia", "sepia", "sepia(100%)"⟩
  , ⟨"Invert", "invert", "invert(100%)"⟩
  , ⟨"Blur", "blur", "blur(2px)"⟩
  , ⟨"Vintage", "vintage", "sepia(50%) contrast(90%) brightness(90%)"⟩
  , ⟨"Cool", "cool", "hue-rotate(180deg) saturate(80%)"⟩
  , ⟨"Warm", "warm", "sepia(30%) saturate(140%)"⟩ ]

/-- `getFilterCss` (lines 171-175): the brightness/contrast/saturate
functions in that order, followed by the selected preset's css when that
css string is truthy (non-empty). -/
def getFilterCss (s : ImageState) : String :=
  let fp := filters.find? (fun f => f.value == s.filter)
  let baseFilters :=
    "brightness(" ++ toString s.brightness ++ "%) contrast(" ++
      toString s.contrast ++ "%) saturate(" ++ toString s.saturation ++ "%)"
  match fp with
  | some f => if f.css ≠ "" then baseFilters ++ " " ++ f.css else baseFilters
  | none => baseFilters

/-- The filter string the on-screen preview installs as the CSS `filter`
style of the `<img>` element (line 728). -/
def previewFilterString (s : ImageState) : String := getFilterCss s

/-- The filter string `exportImage` installs as `ctx.filter` before
drawing (line 314). -/
def exportFilterString (s : ImageState) : String := getFilterCss s

/-- A 2 × 2 real matrix: the linear part of a planar transform (the
translation part is the centering, identical up to canvas geometry on
both paths and not compared here). -/
structure Lin2 where
  a : ℝ
  b : ℝ
  c : ℝ
  d : ℝ

def Lin2.mul (m n : Lin2) : Lin2 :=
  ⟨m.a * n.a + m.b * n.c, m.a * n.b + m.b * n.d,
   m.c * n.a + m.d * n.c, m.c * n.b + m.d * n.d⟩

def Lin2.id : Lin2 := ⟨1, 0, 0, 1⟩

noncomputable def rotMat (r : ℝ) : Lin2 :=
  ⟨Real.cos r, -Real.sin r, Real.sin r, Real.cos r⟩

noncomputable def scaleMat (sx sy : ℝ) : Lin2 := ⟨sx, 0, 0, sy⟩

/-- One primitive of either transform pipeline.  `rotateDeg` is the CSS
function `rotate(<n>deg)` (angle in degrees); `rotateRad` is canvas
`ctx.rotate(<r>)` (angle in radians); `scale2` covers CSS
`scaleX(-1)` / `scaleY(-1)` and canvas `ctx.scale`. -/
inductive TOp where
  | rotateDeg (deg : ℝ)
  | rotateRad (rad : ℝ)
  | scale2 (sx sy : ℝ)

/-- Standard semantics of the primitives (CSS degrees are converted to
radians). -/
noncomputable def TOp.mat : TOp → Lin2
  | .rotateDeg d => rotMat (d * Real.pi / 180)
  | .rotateRad r => rotMat r
  | .scale2 sx sy => scaleMat sx sy

/-- Composition of a transform list.  Both CSS transform lists and canvas
CTM mutations compose left-to-right by right-multiplication, the leftmost
operation outermost. -/
noncomputable def composeOps (l : List TOp) : Lin2 :=
  l.foldl (fun acc op => acc.mul op.mat) Lin2.id

/-- `getTransform` (lines 177-182) as the operation list denoted by the
string it builds: `rotate(<rotation>deg)`, then ` scaleX(-1)` when
`flipH`, then ` scaleY(-1)` when `flipV`. -/
noncomputable def getTransformOps (s : ImageState) : List TOp :=
  [.rotateDeg (s.rotation : ℝ)] ++
    (if s.flipH then [.scale2 (-1) 1] else []) ++
    (if s.flipV then [.scale2 1 (-1)] else [])

/-- The transform `exportImage` (lines 309-312) installs on the canvas
context after the centering translation: `ctx.rotate(rotation·π/180)`,
then `ctx.scale(-1,1)` when `flipH`, then `ctx.scale(1,-1)` when
`flipV`. -/
noncomputable def exportTransformOps (s : ImageState) : List TOp :=
  [.rotateRad ((s.rotation : ℝ) * Real.pi / 180)] ++
    (if s.flipH then [.scale2 (-1) 1] else []) ++
    (if s.flipV then [.scale2 1 (-1)] else [])

/-- The export canvas size computed by `exportImage` (lines 300-307):
the bounding box of the rotated `w × h` image, with the rotation angle
converted from degrees to radians. -/
noncomputable def exportCanvasSize (w h : ℕ) (rotation : ℤ) : ℝ × ℝ :=
  let radians : ℝ := (rotation : ℝ) * Real.pi / 180
  let sinv := |Real.sin radians|
  let cosv := |Real.cos radians|
  ((w : ℝ) * cosv + (h : ℝ) * sinv, (w : ℝ) * sinv + (h : ℝ) * cosv)

/-- Modelled from the spec: the color step of the Compositor, which the
repository delegates to the platform's CSS-filter pipeline and therefore
has no in-repo source.  §4.4: brightness, contrast and saturation are
independent linear operations in percent-of-identity units (100 = no-op)
applied in that order, then the named filter's fixed effect is applied
("invert negates channels", "grayscale desaturates fully", "sepia applies
a fixed color matrix").  Channels carry the CSS 0..1 range; the standard
CSS filter-effects matrices supply the constants.  Spatial or composite
presets (blur, vintage, cool, warm) have no per-pixel semantics given in
the spec and yield `none`. -/
def fBrightness (p : Int) (c : Pixel) : Pixel :=
  ⟨c.r * (p : ℚ) / 100, c.g * (p : ℚ) / 100, c.b * (p : ℚ) / 100⟩

def fContrast (p : Int) (c : Pixel) : Pixel :=
  ⟨(c.r - 1/2) * (p : ℚ) / 100 + 1/2,
   (c.g - 1/2) * (p : ℚ) / 100 + 1/2,
   (c.b - 1/2) * (p : ℚ) / 100 + 1/2⟩

def fSaturate (p : Int) (c : Pixel) : Pixel :=
  let t : ℚ := (p : ℚ) / 100
  ⟨(213/1000 + 787/1000 * t) * c.r + 715/1000 * (1 - t) * c.g +
     72/1000 * (1 - t) * c.b,
   213/1000 * (1 - t) * c.r + (715/1000 + 285/1000 * t) * c.g +
     72/1000 * (1 - t) * c.b,
   213/1000 * (1 - t) * c.r + 715/1000 * (1 - t) * c.g +
     (72/1000 + 928/1000 * t) * c.b⟩

def filterPixel : String → Option (Pixel → Pixel)
  | "none" => some (fun c => c)
  | "invert" => some (fun c => ⟨1 - c.r, 1 - c.g, 1 - c.b⟩)
  | "grayscale" => some (fun c =>
      let l := 2126/10000 * c.r + 7152/10000 * c.g + 722/10000 * c.b
      ⟨l, l, l⟩)
  | "sepia" => some (fun c =>
      ⟨393/1000 * c.r + 769/1000 * c.g + 189/1000 * c.b,
       349/1000 * c.r + 686/1000 * c.g + 168/1000 * c.b,
       272/1000 * c.r + 534/1000 * c.g + 131/1000 * c.b⟩)
  | _ => none

/-- Modelled from the spec: one pixel of the "currently rendered"
image's color pipeline for an `EditState` (geometry aside): sliders in
order, then the selected filter. -/
def renderedPixel (s : ImageState) (c : Pixel) : Option Pixel :=
  (filterPixel s.filter).map fun f =>
    f (fSaturate s.saturation (fContrast s.contrast (fBrightness s.brightness c)))

/-- C2: for every history and every pushed state, `updateState` drops all
entries strictly after the cursor, appends the merged new state, and sets
the cursor to the new last index; concretely, from history `[s0,s1,s2]`
at cursor 2, two undos give cursor 0, pushing `s3` gives history
`[s0,s3]` at cursor 1, and a subsequent redo is a no-op. -/
theorem push_truncates_after_cursor :
    (∀ (hs : HistoryState) (p : StatePatch),
        (updateState hs p).history
          = hs.history.take (hs.historyIndex + 1) ++ [applyPatch hs.imageState p] ∧
        (updateState hs p).historyIndex = (updateState hs p).history.length - 1) ∧
    (∀ s0 s1 s2 s3 : ImageState,
        (undo (undo ⟨s2, [s0, s1, s2], 2⟩)).historyIndex = 0 ∧
        (updateState (undo (undo ⟨s2, [s0, s1, s2], 2⟩)) (toPatch s3)).history
          = [s0, s3] ∧
        (updateState (undo (undo ⟨s2, [s0, s1, s2], 2⟩)) (toPatch s3)).historyIndex
          = 1 ∧
        (updateState (undo (undo ⟨s2, [s0, s1, s2], 2⟩)) (toPatch s3)).imageState
          = s3 ∧
        redo (updateState (undo (undo ⟨s2, [s0, s1, s2], 2⟩)) (toPatch s3))
          = updateState (undo (undo ⟨s2, [s0, s1, s2], 2⟩)) (toPatch s3)) := by
  refine ⟨fun hs p => ⟨rfl, rfl⟩, fun s0 s1 s2 s3 => ⟨rfl, rfl, rfl, rfl, rfl⟩⟩

/-- C3: after any sequence of pushes from a freshly initialized log, an
undo followed immediately by a redo restores the EditState that was
current before the undo. -/
theorem undo_redo_restores_state (ps : List StatePatch) :
    (redo (undo (pushes ps))).imageState = (pushes ps).imageState :=
  undo_redo_roundtrip (pushes ps) (atTop_pushes ps)

/-- C8 (amended): only the `mousemove` samples are clamped to the
displayed box before scaling, so their scaled source coordinates lie in
`[0, sourceW] × [0, sourceH]`; the initial `mousedown` sample is stored
unclamped (see the counterexample). -/
theorem move_samples_clamped (cx cy l t rectW rectH sw sh : ℚ)
    (hw : 0 < rectW) (hh : 0 < rectH) (hsw : 0 ≤ sw) (hsh : 0 ≤ sh) :
    0 ≤ (handleCropMouseMove cx cy l t rectW rectH).1 * (sw / rectW) ∧
    (handleCropMouseMove cx cy l t rectW rectH).1 * (sw / rectW) ≤ sw ∧
    0 ≤ (handleCropMouseMove cx cy l t rectW rectH).2 * (sh / rectH) ∧
    (handleCropMouseMove cx cy l t rectW rectH).2 * (sh / rectH) ≤ sh := by
  have hx0 : 0 ≤ (handleCropMouseMove cx cy l t rectW rectH).1 :=
    le_max_left 0 _
  have hy0 : 0 ≤ (handleCropMouseMove cx cy l t rectW rectH).2 :=
    le_max_left 0 _
  have hx1 : (handleCropMouseMove cx cy l t rectW rectH).1 ≤ rectW :=
    max_le hw.le (min_le_right _ _)
  have hy1 : (handleCropMouseMove cx cy l t rectW rectH).2 ≤ rectH :=
    max_le hh.le (min_le_right _ _)
  have hdx : 0 ≤ sw / rectW := div_nonneg hsw hw.le
  have hdy : 0 ≤ sh / rectH := div_nonneg hsh hh.le
  refine ⟨mul_nonneg hx0 hdx, ?_, mul_nonneg hy0 hdy, ?_⟩
  · calc (handleCropMouseMove cx cy l t rectW rectH).1 * (sw / rectW)
        ≤ rectW * (sw / rectW) := mul_le_mul_of_nonneg_right hx1 hdx
      _ = sw := by field_simp
  · calc (handleCropMouseMove cx cy l t rectW rectH).2 * (sh / rectH)
        ≤ rectH * (sh / rectH) := mul_le_mul_of_nonneg_right hy1 hdy
      _ = sh := by field_simp

/-- Witness for the clamping theorem at a pointer far outside a 100×100
box over a 50×50 source. -/
theorem move_samples_clamped_witness :
    (0:ℚ) < 100 ∧
    0 ≤ (handleCropMouseMove 500 (-70) 0 0 100 100).1 * ((50:ℚ) / 100) ∧
    (handleCropMouseMove 500 (-70) 0 0 100 100).1 * ((50:ℚ) / 100) ≤ 50 :=
  ⟨by norm_num,
   (move_samples_clamped 500 (-70) 0 0 100 100 50 50 (by norm_num) (by norm_num)
      (by norm_num) (by norm_num)).1,
   (move_samples_clamped 500 (-70) 0 0 100 100 50 50 (by norm_num) (by norm_num)
      (by norm_num) (by norm_num)).2.1⟩

/-- C8 (counterexample): the `mousedown` handler stores the raw relative
point; a press 10px left of the box maps to source x = −10, outside
`[0, sourceW]` even after the (identity) scaling of a 100px box over a
100px-wide source. -/
theorem press_sample_not_clamped :
    ¬ (0 ≤ (handleCropMouseDown 0 0 10 0).1 * ((100:ℚ) / 100)) := by
  norm_num [handleCropMouseDown]

/-- C9: the export bounding-box formula gives exactly (W,H), (H,W),
(W,H), (H,W) at rotations 0°, 90°, 180°, 270°. -/
theorem export_canvas_quadrant_dims (w h : ℕ) :
    exportCanvasSize w h 0 = ((w : ℝ), (h : ℝ)) ∧
    exportCanvasSize w h 90 = ((h : ℝ), (w : ℝ)) ∧
    exportCanvasSize w h 180 = ((w : ℝ), (h : ℝ)) ∧
    exportCanvasSize w h 270 = ((h : ℝ), (w : ℝ)) := by
  have e0 : ((0 : ℤ) : ℝ) * Real.pi / 180 = 0 := by push_cast; ring
  have e90 : ((90 : ℤ) : ℝ) * Real.pi / 180 = Real.pi / 2 := by push_cast; ring
  have e180 : ((180 : ℤ) : ℝ) * Real.pi / 180 = Real.pi := by push_cast; ring
  have e270 : ((270 : ℤ) : ℝ) * Real.pi / 180 = Real.pi + Real.pi / 2 := by
    push_cast; ring
  have s270 : Real.sin (Real.pi + Real.pi / 2) = -1 := by
    rw [Real.sin_add]; simp
  have c270 : Real.cos (Real.pi + Real.pi / 2) = 0 := by
    rw [Real.cos_add]; simp
  refine ⟨?_, ?_, ?_, ?_⟩
  · simp only [exportCanvasSize, e0, Real.sin_zero, Real.cos_zero, abs_zero,
      abs_one, Prod.ext_iff]
    constructor <;> ring
  · simp only [exportCanvasSize, e90, Real.sin_pi_div_two, Real.cos_pi_div_two,
      abs_zero, abs_one, Prod.ext_iff]
    constructor <;> ring
  · simp only [exportCanvasSize, e180, Real.sin_pi, Real.cos_pi, abs_zero,
      abs_neg, abs_one, Prod.ext_iff]
    constructor <;> ring
  · simp only [exportCanvasSize, e270, s270, c270, abs_zero, abs_neg, abs_one,
      Prod.ext_iff]
    constructor <;> ring

/-- C5: preview and export share the color math (the very same
`getFilterCss` string: brightness, contrast, saturate, then the preset)
and denote the same geometric composition (rotation, then horizontal
mirror, then vertical mirror), so the two renderings agree up to
resolution/placement. -/
theorem preview_export_same_math (s : ImageState) :
    previewFilterString s = exportFilterString s ∧
    composeOps (getTransformOps s) = composeOps (exportTransformOps s) := by
  refine ⟨rfl, ?_⟩
  cases hH : s.flipH <;> cases hV : s.flipV <;>
    simp [getTransformOps, exportTransformOps, hH, hV, composeOps, TOp.mat]

/-- A 2×2 all-black source used by the concrete scenarios. -/
def blackImage : PixelImage := ⟨2, 2, fun _ _ => ⟨0, 0, 0⟩⟩

/-- An EditState with the Invert preset active and every slider at its
identity value. -/
def invertState : ImageState := { defaultState with filter := "invert" }

/-- A session holding `blackImage` with an active 1×1-display crop
selection over a 2×2 display box. -/
def witnessSession : Session :=
  { initSession with
      image := some blackImage
    , originalImage := some blackImage
    , isCropping := true
    , cropStart := some (0, 0)
    , cropEnd := some (1, 1)
    , origWidth := 2
    , origHeight := 2
    , resizeWidth := 2
    , resizeHeight := 2 }

/-- C4 (amended): a committed crop copies the selected rectangle out of
the RAW current ImageSource — `applyCrop` never installs `ctx.filter` or
a transform, so each committed pixel is the untransformed source pixel at
the mapped offset, not a pixel of the filtered/rotated render. -/
theorem crop_copies_raw_pixels (sess : Session) (st en : ℚ × ℚ)
    (img : PixelImage) (rectW rectH : ℚ)
    (h1 : sess.cropStart = some st) (h2 : sess.cropEnd = some en)
    (h3 : sess.image = some img) :
    (step sess (Event.applyCropBtn rectW rectH)).image
      = some (cropRaster img
          (cropComputation st en rectW rectH sess.origWidth sess.origHeight)) ∧
    ∀ x y : ℕ,
      (cropRaster img
        (cropComputation st en rectW rectH sess.origWidth sess.origHeight)).pix x y
        = img.pix
            (x + (⌊(cropComputation st en rectW rectH sess.origWidth
                      sess.origHeight).x⌋).toNat)
            (y + (⌊(cropComputation st en rectW rectH sess.origWidth
                      sess.origHeight).y⌋).toNat) := by
  refine ⟨?_, fun x y => rfl⟩
  simp [step, h1, h2, h3]

/-- Witness: the raw-copy theorem applied to the concrete crop session. -/
theorem crop_copies_raw_pixels_witness :
    (step witnessSession (Event.applyCropBtn 2 2)).image
      = some (cropRaster blackImage (cropComputation (0, 0) (1, 1) 2 2 2 2)) :=
  (crop_copies_raw_pixels witnessSession (0, 0) (1, 1) blackImage 2 2
    rfl rfl rfl).1

/-- C4 (counterexample): with the Invert preset active and identity
sliders, the claim predicts a committed black pixel becomes white
(inverted); the code commits the raw black pixel instead. -/
theorem crop_not_from_rendered_image :
    ¬ (some ((cropRaster blackImage
          (cropComputation (0, 0) (2, 2) 2 2 2 2)).pix 0 0)
        = renderedPixel invertState (blackImage.pix 0 0)) := by
  norm_num [cropRaster, cropComputation, renderedPixel, filterPixel,
    invertState, defaultState, blackImage, fBrightness, fContrast, fSaturate,
    Pixel.mk.injEq]

/-- C1 (amended): committed crop and committed resize each replace the
ImageSource (both `image` and `originalImage`) with the freshly
rasterized buffer, but leave the EditState and the History untouched. -/
theorem commit_replaces_source_keeps_history (sess : Session) (st en : ℚ × ℚ)
    (img : PixelImage) (rectW rectH : ℚ)
    (h1 : sess.cropStart = some st) (h2 : sess.cropEnd = some en)
    (h3 : sess.image = some img) :
    ((step sess (Event.applyCropBtn rectW rectH)).hs = sess.hs ∧
     (step sess (Event.applyCropBtn rectW rectH)).image
       = some (cropRaster img
           (cropComputation st en rectW rectH sess.origWidth sess.origHeight)) ∧
     (step sess (Event.applyCropBtn rectW rectH)).originalImage
       = (step sess (Event.applyCropBtn rectW rectH)).image) ∧
    ((step sess Event.resizeBtn).hs = sess.hs ∧
     (step sess Event.resizeBtn).image
       = some (resizeRaster img sess.resizeWidth sess.resizeHeight) ∧
     (step sess Event.resizeBtn).originalImage
       = (step sess Event.resizeBtn).image) := by
  refine ⟨⟨?_, ?_, ?_⟩, ?_, ?_, ?_⟩ <;> simp [step, h1, h2, h3]

/-- Witness: the commit theorem applied to the concrete crop session. -/
theorem commit_replaces_source_keeps_history_witness :
    (step witnessSession (Event.applyCropBtn 2 2)).hs = witnessSession.hs :=
  ((commit_replaces_source_keeps_history witnessSession (0, 0) (1, 1)
    blackImage 2 2 rfl rfl rfl).1).1

/-- A reachable session: upload, set brightness to 150, then commit a
crop of the upper-left display quadrant. -/
def sessionAfterCrop : Session :=
  run [Event.upload blackImage, Event.setBrightness 150, Event.startCrop,
       Event.cropMouseDown 0 0 0 0, Event.cropMouseMove 1 1 0 0 2 2,
       Event.applyCropBtn 2 2]

/-- C1 (counterexample): after that committed crop the EditState still
has brightness 150 and the history still has two entries — the commit did
NOT reset them to `[default]` with cursor 0. -/
theorem commit_does_not_reset_history :
    ¬ (sessionAfterCrop.hs = initialHistory) := by
  decide

/-- C6 (amended): `resetAll` restores the ImageSource to the CURRENT
baseline `originalImage` — which crop/resize commits overwrite with the
committed buffer — and resets EditState and History to their defaults. -/
theorem resetAll_restores_committed_baseline (sess : Session) (b : PixelImage)
    (h : sess.originalImage = some b) :
    (step sess Event.resetAllBtn).image = some b ∧
    (step sess Event.resetAllBtn).hs = initialHistory ∧
    (step sess Event.resetAllBtn).originalImage = some b := by
  refine ⟨?_, ?_, ?_⟩ <;> simp [step, h]

/-- Witness: the reset theorem applied to the concrete crop session. -/
theorem resetAll_restores_committed_baseline_witness :
    (step witnessSession Event.resetAllBtn).image = some blackImage :=
  (resetAll_restores_committed_baseline witnessSession blackImage rfl).1

/-- A reachable session: upload the 2×2 image, commit a crop of the
upper-left display quadrant (yielding a 1×1 baseline), then Reset All. -/
def sessionAfterReset : Session :=
  run [Event.upload blackImage, Event.startCrop, Event.cropMouseDown 0 0 0 0,
       Event.cropMouseMove 1 1 0 0 2 2, Event.applyCropBtn 2 2,
       Event.resetAllBtn]

/-- C6 (counterexample): after that run, Reset All yields the 1×1
crop-committed buffer, not the 2×2 image as originally decoded at upload
time. -/
theorem resetAll_not_original_upload :
    ¬ (sessionAfterReset.image = some blackImage) := by
  intro h
  have hw : sessionAfterReset.image.map PixelImage.width = some 1 := by
    norm_num [sessionAfterReset, run, step, initSession, initialHistory,
      handleCropMouseDown, handleCropMouseMove, cropComputation, cropRaster,
      blackImage]
  rw [h] at hw
  simp [blackImage] at hw

/-- C7 (amended): a crop commit is never refused for being degenerate —
`applyCrop` has no degeneracy guard, so for ANY selection the commit
proceeds (crop mode is exited, the selection cleared, the rasterized
buffer installed); on each axis where the selection is degenerate the
committed size is zero: equal x-corners give stored width 0 and a
zero-width buffer, equal y-corners give stored height 0 and a
zero-height buffer. -/
theorem degenerate_crop_not_refused (sess : Session) (st en : ℚ × ℚ)
    (img : PixelImage) (rectW rectH : ℚ)
    (h1 : sess.cropStart = some st) (h2 : sess.cropEnd = some en)
    (h3 : sess.image = some img) :
    (step sess (Event.applyCropBtn rectW rectH)).isCropping = false ∧
    (step sess (Event.applyCropBtn rectW rectH)).cropStart = none ∧
    (step sess (Event.applyCropBtn rectW rectH)).cropEnd = none ∧
    (step sess (Event.applyCropBtn rectW rectH)).image
      = some (cropRaster img
          (cropComputation st en rectW rectH sess.origWidth sess.origHeight)) ∧
    (st.1 = en.1 →
      (step sess (Event.applyCropBtn rectW rectH)).origWidth = 0 ∧
      (step sess (Event.applyCropBtn rectW rectH)).image.map PixelImage.width
        = some 0) ∧
    (st.2 = en.2 →
      (step sess (Event.applyCropBtn rectW rectH)).origHeight = 0 ∧
      (step sess (Event.applyCropBtn rectW rectH)).image.map PixelImage.height
        = some 0) := by
  refine ⟨?_, ?_, ?_, ?_, fun heq => ?_, fun heq => ?_⟩
  · simp [step, h1, h2, h3]
  · simp [step, h1, h2, h3]
  · simp [step, h1, h2, h3]
  · simp [step, h1, h2, h3]
  · constructor <;>
      simp [step, h1, h2, h3, cropComputation, cropRaster, heq]
  · constructor <;>
      simp [step, h1, h2, h3, cropComputation, cropRaster, heq]

/-- A session holding `blackImage` with a degenerate (single-point) crop
selection. -/
def degenSession : Session :=
  { initSession with
      image := some blackImage
    , originalImage := some blackImage
    , isCropping := true
    , cropStart := some (1, 1)
    , cropEnd := some (1, 1)
    , origWidth := 2
    , origHeight := 2 }

/-- The same session with a zero-width but nonzero-height (vertical
line) selection. -/
def vertSelSession : Session :=
  { degenSession with cropStart := some (1, 0), cropEnd := some (1, 2) }

/-- Witness: the degenerate-commit theorem, exercised at a single-point
selection (both axes degenerate) and at a vertical-line selection (zero
width only). -/
theorem degenerate_crop_not_refused_witness :
    ((step degenSession (Event.applyCropBtn 2 2)).isCropping = false ∧
     (step degenSession (Event.applyCropBtn 2 2)).origWidth = 0 ∧
     (step degenSession (Event.applyCropBtn 2 2)).origHeight = 0) ∧
    ((step vertSelSession (Event.applyCropBtn 2 2)).isCropping = false ∧
     (step vertSelSession (Event.applyCropBtn 2 2)).origWidth = 0) :=
  ⟨⟨(degenerate_crop_not_refused degenSession (1, 1) (1, 1) blackImage 2 2
       rfl rfl rfl).1,
    ((degenerate_crop_not_refused degenSession (1, 1) (1, 1) blackImage 2 2
       rfl rfl rfl).2.2.2.2.1 rfl).1,
    ((degenerate_crop_not_refused degenSession (1, 1) (1, 1) blackImage 2 2
       rfl rfl rfl).2.2.2.2.2 rfl).1⟩,
   ⟨(degenerate_crop_not_refused vertSelSession (1, 0) (1, 2) blackImage 2 2
       rfl rfl rfl).1,
    ((degenerate_crop_not_refused vertSelSession (1, 0) (1, 2) blackImage 2 2
       rfl rfl rfl).2.2.2.2.1 rfl).1⟩⟩

/-- A reachable crop-mode session whose selection is a single point: the
press stores both corners and no move follows. -/
def preDegenerate : Session :=
  run [Event.upload blackImage, Event.startCrop, Event.cropMouseDown 1 1 0 0]

/-- C7 (counterexample): from that session the commit is not refused —
crop mode is exited and the native dimensions change from 2×2 to 0×0,
contradicting "no state changes, crop mode remains active". -/
theorem degenerate_crop_commits :
    preDegenerate.isCropping = true ∧
    preDegenerate.cropStart = preDegenerate.cropEnd ∧
    preDegenerate.origWidth = 2 ∧
    (step preDegenerate (Event.applyCropBtn 2 2)).isCropping = false ∧
    (step preDegenerate (Event.applyCropBtn 2 2)).origWidth = 0 := by
  refine ⟨rfl, rfl, ?_, ?_, ?_⟩ <;>
    norm_num [preDegenerate, run, step, initSession, blackImage,
      handleCropMouseDown, cropComputation, cropRaster]

/-- The C10 invariant: the current EditState and every history entry
carry `crop = none`. -/
def CropFree (hs : HistoryState) : Prop :=
  hs.imageState.crop = none ∧ ∀ st ∈ hs.history, st.crop = none

lemma cropFree_initial : CropFree initialHistory := by
  refine ⟨rfl, ?_⟩
  intro st hst
  simp only [initialHistory, List.mem_singleton] at hst
  rw [hst]; rfl

lemma crop_of_getD (l : List ImageState) (i : Nat) (d : ImageState)
    (hl : ∀ st ∈ l, st.crop = none) (hd : d.crop = none) :
    (l.getD i d).crop = none := by
  rcases h : l.get? i with _ | a
  · rw [List.getD_eq_getD_get?, h]; exact hd
  · rw [List.getD_eq_getD_get?, h]; exact hl a (List.get?_mem h)

lemma cropFree_updateState (hs : HistoryState) (p : StatePatch)
    (hp : p.crop = none) (h : CropFree hs) : CropFree (updateState hs p) := by
  obtain ⟨hcur, hall⟩ := h
  have hnew : (applyPatch hs.imageState p).crop = none := by
    simp [applyPatch, hp, hcur]
  refine ⟨hnew, ?_⟩
  intro st hst
  rcases List.mem_append.1 hst with hmem | hmem
  · exact hall st (List.take_subset _ _ hmem)
  · rw [List.mem_singleton.1 hmem]; exact hnew

lemma cropFree_undo (hs : HistoryState) (h : CropFree hs) :
    CropFree (undo hs) := by
  obtain ⟨hcur, hall⟩ := h
  unfold undo
  by_cases hc : 0 < hs.historyIndex
  · simp only [hc, if_true]
    exact ⟨crop_of_getD _ _ _ hall rfl, hall⟩
  · simp only [hc, if_false]
    exact ⟨hcur, hall⟩

lemma cropFree_redo (hs : HistoryState) (h : CropFree hs) :
    CropFree (redo hs) := by
  obtain ⟨hcur, hall⟩ := h
  unfold redo
  by_cases hc : hs.historyIndex < hs.history.length - 1
  · simp only [hc, if_true]
    exact ⟨crop_of_getD _ _ _ hall rfl, hall⟩
  · simp only [hc, if_false]
    exact ⟨hcur, hall⟩

lemma cropFree_step (s : Session) (e : Event) (h : CropFree s.hs) :
    CropFree (step s e).hs := by
  cases e with
  | setBrightness v => exact cropFree_updateState _ _ rfl h
  | setContrast v => exact cropFree_updateState _ _ rfl h
  | setSaturation v => exact cropFree_updateState _ _ rfl h
  | rotateMinus90 => exact cropFree_updateState _ _ rfl h
  | rotatePlus90 => exact cropFree_updateState _ _ rfl h
  | setRotation v => exact cropFree_updateState _ _ rfl h
  | toggleFlipH => exact cropFree_updateState _ _ rfl h
  | toggleFlipV => exact cropFree_updateState _ _ rfl h
  | setFilter f => exact cropFree_updateState _ _ rfl h
  | undoBtn => exact cropFree_undo _ h
  | redoBtn => exact cropFree_redo _ h
  | upload img => exact cropFree_initial
  | startCrop => exact h
  | cancelCropBtn => exact h
  | cropMouseDown cx cy l t =>
      by_cases hc : s.isCropping <;> simp [step, hc] <;> exact h
  | cropMouseMove cx cy l t rectW rectH =>
      by_cases hc : s.isCropping
      · cases hcs : s.cropStart <;> simp [step, hc, hcs] <;> exact h
      · simp [step, hc]; exact h
  | applyCropBtn rectW rectH =>
      cases hcs : s.cropStart with
      | none => simpa [step, hcs] using h
      | some st =>
          cases hce : s.cropEnd with
          | none => simpa [step, hcs, hce] using h
          | some en =>
              cases him : s.image with
              | none => simpa [step, hcs, hce, him] using h
              | some img => simpa [step, hcs, hce, him] using h
  | resizeBtn =>
      cases him : s.image with
      | none => simpa [step, him] using h
      | some img => simpa [step, him] using h
  | widthChange v =>
      by_cases hc : s.maintainAspect ∧ 0 < s.origWidth <;>
        simp [step, hc] <;> exact h
  | heightChange v =>
      by_cases hc : s.maintainAspect ∧ 0 < s.origHeight <;>
        simp [step, hc] <;> exact h
  | setMaintainAspect b => exact h
  | resetAllBtn =>
      cases ho : s.originalImage with
      | none => simpa [step, ho] using h
      | some b =>
          have : (step s Event.resetAllBtn).hs = initialHistory := by
            simp [step, ho]
          rw [this]; exact cropFree_initial

lemma cropFree_run_aux (es : List Event) :
    ∀ s : Session, CropFree s.hs → CropFree ((es.foldl step s)).hs := by
  induction es with
  | nil => intro s h; exact h
  | cons e rest ih =>
      intro s h
      exact ih (step s e) (cropFree_step s e h)

/-- C10: in every session reachable by any event sequence, the current
EditState's `crop` field is `none`, and so is that of every history
entry — no operation ever writes a crop region into EditState. -/
theorem crop_field_always_none (es : List Event) :
    (run es).hs.imageState.crop = none ∧
    ∀ st ∈ (run es).hs.history, st.crop = none :=
  cropFree_run_aux es initSession cropFree_initial
